import Mathlib

/-!
Verification of the GPay Node.js SDK client (`GpayApiClient.node.js`).

The JavaScript code is embedded shallowly: parameter maps and JSON objects
become association lists, JavaScript scalars become an inductive type, the
stateful client becomes a structure of credential strings, and every throwing
operation returns `Except ApiError`.  The Node `crypto` HMAC primitive is
outside the repository, so the development is parameterized over an arbitrary
MAC function `HmacFn`; everything the SDK itself computes (canonicalization,
token construction, header extraction, the verify-then-construct pipeline) is
modelled from the source.
-/

/-- A JavaScript scalar value as it occurs in parameter maps and response
fields.  `num` carries an integer: every number appearing in the signed
parameter maps of this API is integral (decimal amounts travel as strings). -/
inductive JValue where
  | str (s : String)
  | num (n : Int)
  | bool (b : Bool)
  | null
  | undefined
deriving DecidableEq

/-- JavaScript string conversion of a scalar, as performed by the template
literal on line 114 (integers print in decimal, exactly as `Int` does). -/
def jsToString : JValue → String
  | .str s => s
  | .num n => toString n
  | .bool true => "true"
  | .bool false => "false"
  | .null => "null"
  | .undefined => "undefined"

/-- One `key=value` fragment of the canonical query string (line 114):
a value with `value == null` (JavaScript `null` or `undefined`) serializes as
the empty string, every other value is inserted verbatim via string
conversion - no URL-encoding. -/
def entryString (kv : String × JValue) : String :=
  kv.1 ++ "=" ++ (match kv.2 with
    | .null => ""
    | .undefined => ""
    | v => jsToString v)

/-- The UTF-16 code units of a character.  JavaScript strings are UTF-16 and
`Array.prototype.sort`'s default comparator compares strings code unit by
code unit. -/
def charUtf16 (c : Char) : List Nat :=
  if c.toNat < 0x10000 then [c.toNat]
  else [0xD800 + (c.toNat - 0x10000) / 0x400, 0xDC00 + (c.toNat - 0x10000) % 0x400]

/-- The UTF-16 code-unit sequence of a string. -/
def utf16 (s : String) : List Nat := s.data.flatMap charUtf16

/-- Lexicographic `≤` on code-unit sequences: the order the default JavaScript
string comparison induces. -/
def unitsLeB : List Nat → List Nat → Bool
  | [], _ => true
  | _ :: _, [] => false
  | a :: as, b :: bs => if a < b then true else if b < a then false else unitsLeB as bs

/-- The default JavaScript string sort order (lexicographic on UTF-16 code
units). -/
def strLe (s t : String) : Prop := unitsLeB (utf16 s) (utf16 t) = true

instance : DecidableRel strLe := fun s t => by unfold strLe; infer_instance

/-- The numeric value of a digit list (most significant first). -/
def digitsToNat (ds : List Char) : Nat := ds.foldl (fun a c => a * 10 + (c.toNat - 48)) 0

/-- The value of a string of decimal digits (`String.toNat?`, restated over the
character list so that it evaluates inside the kernel). -/
def strToNat? (s : String) : Option Nat :=
  if !s.data.isEmpty && s.data.all (fun c => c.isDigit) then some (digitsToNat s.data)
  else none

/-- Whether a string is an ECMAScript "array index" property key: the canonical
decimal representation of an integer below `2^32 - 1`.  An object enumerates
such keys first, in ascending numeric order, regardless of insertion order. -/
def isArrayIndex (s : String) : Bool :=
  match strToNat? s with
  | some n => toString n == s && decide (n < 4294967295)
  | none => false

/-- The numeric value of an (array-index) key. -/
def toNatD (s : String) : Nat := (strToNat? s).getD 0

/-- Ascending numeric order on array-index keys.  Ties are broken by the string
order; distinct array-index keys always have distinct numeric values, so on the
keys of an actual JavaScript object the tie-break never fires. -/
def idxKeyLe (s t : String) : Prop :=
  toNatD s < toNatD t ∨ (toNatD s = toNatD t ∧ strLe s t)

instance : DecidableRel idxKeyLe := fun s t => by unfold idxKeyLe; infer_instance

/-- Relation `idxKeyLe` lifted to map entries through their key. -/
def entryIdxLe (a b : String × JValue) : Prop := idxKeyLe a.1 b.1

instance : DecidableRel entryIdxLe := fun a b => by unfold entryIdxLe; infer_instance

/-- Lines 106-111 of `generateVerificationHash`: `Object.keys(parameters)` is
sorted with the default comparator and the keys are re-inserted one by one into
a fresh object.  The result, as an insertion-ordered association list: the
sorted keys, each paired with its value in `parameters`. -/
def sortedParamsList (parameters : List (String × JValue)) : List (String × JValue) :=
  (List.insertionSort strLe (parameters.map Prod.fst)).filterMap
    (fun key => (parameters.lookup key).map (fun v => (key, v)))

/-- Enumeration `Object.entries` of an object given by its insertion-ordered entry list:
ECMAScript own-property enumeration lists array-index keys first in ascending
numeric order, then the remaining string keys in insertion order. -/
def objEntries (l : List (String × JValue)) : List (String × JValue) :=
  List.insertionSort entryIdxLe (l.filter (fun kv => isArrayIndex kv.1))
    ++ l.filter (fun kv => !isArrayIndex kv.1)

/-- The canonical query string of lines 113-115: `Object.entries(sortedParams)`
mapped to `key=value` fragments and joined with `&`. -/
def queryString (parameters : List (String × JValue)) : String :=
  String.intercalate "&" ((objEntries (sortedParamsList parameters)).map entryString)

/-- The HMAC-SHA256-base64 primitive of lines 118-120
(`crypto.createHmac('sha256', secretKey)` ... `digest('base64')`): a function
from MAC key and message to digest string.  The Node `crypto` library lives
outside this repository, so theorems quantify over this function. -/
abbrev HmacFn := String → String → String

/-- The error outcomes of the client.  In the source every failure is a thrown
`Error`; the constructors record which throw site fired, and `remoteError`
carries the code and message interpolated into the thrown message. -/
inductive ApiError where
  | configurationError
  | invalidResponse
  | remoteError (code message : String)
  | missingSignature
  | hashMismatch
deriving DecidableEq

namespace BaseUrl

/-- Constant `BaseUrl.STAGING` (line 73). -/
def STAGING : String := "https://gpay-staging.libyaguide.net/banking/api/onlinewallet/v1"

/-- Constant `BaseUrl.PRODUCTION` (line 74). -/
def PRODUCTION : String := "https://gpay.ly/banking/api/onlinewallet/v1"

/-- Constant `BaseUrl.DEV` (line 75). -/
def DEV : String := "http://localhost:8080/banking/api/onlinewallet/v1"

/-- List `Object.values(BaseUrl)` as used by the constructor's membership test. -/
def values : List String := [STAGING, PRODUCTION, DEV]

end BaseUrl

/-- The credential state a constructed client carries (lines 90-94). -/
structure GPayApiClient where
  apiKey : String
  secretKey : String
  password : String
  baseUrl : String
  language : String
deriving DecidableEq

/-- The constructor (lines 86-95): throws unless `baseUrl` is a member of
`Object.values(BaseUrl)`, otherwise stores the five fields unchanged. -/
def GPayApiClient.create (apiKey secretKey password baseUrl language : String) :
    Except ApiError GPayApiClient :=
  if baseUrl ∈ BaseUrl.values then
    .ok ⟨apiKey, secretKey, password, baseUrl, language⟩
  else
    .error .configurationError

/-- Method `generateHashToken(salt, password)` (lines 101-103): plain concatenation. -/
def generateHashToken (salt password : String) : String := salt ++ password

/-- Method `generateVerificationHash(hashToken, parameters)` (lines 105-121): the MAC,
keyed by `this.secretKey`, of the hash token followed by the canonical query
string. -/
def GPayApiClient.generateVerificationHash (c : GPayApiClient) (hmac : HmacFn)
    (hashToken : String) (parameters : List (String × JValue)) : String :=
  hmac c.secretKey (hashToken ++ queryString parameters)

/-- JavaScript truthiness of an optional string: `undefined` and `""` are
falsy, every other string is truthy. -/
def falsy : Option String → Bool
  | none => true
  | some s => s == ""

/-- JavaScript `a || b` on optional strings (used for the two header spellings
on lines 172-173): keeps `a` when it is truthy, otherwise yields `b`. -/
def jsOr (a b : Option String) : Option String :=
  match a with
  | some s => if s == "" then b else some s
  | none => b

/-- JavaScript `s || d` with a (non-empty) default string, as on lines
153-154. -/
def strOr (s : Option String) (d : String) : String :=
  match s with
  | some s => if s == "" then d else s
  | none => d

/-- Method `verifyResponse(headers, responseFields)` (lines 171-182).  The hash and
salt are read from the header object under exactly the spellings
`x-signature-hash` / `X-Signature-Hash` (resp. `-salt`); a falsy result for
either aborts with the missing-signature error; otherwise the signature is
recomputed from the received salt, `this.password` and the response fields and
compared for string equality. -/
def GPayApiClient.verifyResponse (c : GPayApiClient) (hmac : HmacFn)
    (headers : List (String × String)) (responseFields : List (String × JValue)) :
    Except ApiError Unit :=
  let receivedHash := jsOr (headers.lookup "x-signature-hash") (headers.lookup "X-Signature-Hash")
  let receivedSalt := jsOr (headers.lookup "x-signature-salt") (headers.lookup "X-Signature-Salt")
  if falsy receivedHash || falsy receivedSalt then
    .error .missingSignature
  else
    let hashToken := generateHashToken (receivedSalt.getD "") c.password
    let verificationHash := c.generateVerificationHash hmac hashToken responseFields
    if verificationHash = receivedHash.getD "" then .ok () else .error .hashMismatch

/-- A JavaScript number as this client produces them: NaN, or an exact decimal
value modelled as a rational. -/
inductive JSNum where
  | nan
  | val (q : ℚ)
deriving DecidableEq

/-- Parse a decimal prefix `[+-] digits [. digits]` of a character list,
returning its value and the unconsumed rest; `none` when no digit occurs.
(Exponent and hexadecimal forms, which no GPay field uses, are not modelled.) -/
def parseDecimal (cs : List Char) : Option (ℚ × List Char) :=
  let signed : ℚ × List Char :=
    match cs with
    | '-' :: t => (-1, t)
    | '+' :: t => (1, t)
    | t => (1, t)
  let intPart := signed.2.span (fun c => c.isDigit)
  let fracPart : List Char × List Char :=
    match intPart.2 with
    | '.' :: t => t.span (fun c => c.isDigit)
    | r => ([], r)
  if intPart.1.isEmpty && fracPart.1.isEmpty then none
  else some (signed.1 * ((digitsToNat intPart.1 : ℚ)
    + (digitsToNat fracPart.1 : ℚ) / (10 : ℚ) ^ fracPart.1.length), fracPart.2)

/-- JavaScript `parseFloat` on a string: the value of the longest numeric
prefix, NaN when there is none. -/
def parseFloatStr (s : String) : JSNum :=
  match parseDecimal s.data with
  | some p => .val p.1
  | none => .nan

/-- JavaScript `parseFloat(v)`: the argument is first converted to a string
(`String(null) = "null"`, `String(true) = "true"`, `String(undefined) =
"undefined"` - none of which starts with a digit or sign-digit, hence NaN);
an integer round-trips through its decimal representation. -/
def parseFloatJ : JValue → JSNum
  | .str s => parseFloatStr s
  | .num n => parseFloatStr (toString n)
  | .bool _ => .nan
  | .null => .nan
  | .undefined => .nan

/-- JavaScript `Number(v)` (ToNumber): `null` and `""` convert to `0`,
`undefined` and non-numeric strings to NaN, booleans to 0/1; a string must
parse in its entirety. -/
def toNumberJ : JValue → JSNum
  | .str s =>
    if s.data.isEmpty then .val 0
    else
      match parseDecimal s.data with
      | some (q, []) => .val q
      | _ => .nan
  | .num n => .val n
  | .bool b => .val (if b then 1 else 0)
  | .null => .val 0
  | .undefined => .nan

/-- Expression `new Date(Number(x))`, modelled by its epoch-millisecond numeric value
(NaN meaning an invalid date). -/
def newDate (v : JValue) : JSNum := toNumberJ v

/-- The `Balance` record (lines 435-440). -/
structure Balance where
  balance : JSNum
  responseTime : JSNum
deriving DecidableEq

/-- Constructor `new Balance(balance, responseTime)`. -/
def Balance.make (balance responseTime : JValue) : Balance :=
  ⟨parseFloatJ balance, newDate responseTime⟩

/-- The `PaymentRequest` record (lines 451-460). -/
structure PaymentRequest where
  requesterUsername : JValue
  requestId : JValue
  requestTime : JValue
  amount : JSNum
  referenceNo : JValue
  responseTime : JSNum
deriving DecidableEq

/-- Constructor `new PaymentRequest(...)`. -/
def PaymentRequest.make (requesterUsername requestId requestTime amount referenceNo
    responseTime : JValue) : PaymentRequest :=
  ⟨requesterUsername, requestId, requestTime, parseFloatJ amount, referenceNo,
    newDate responseTime⟩

/-- The `PaymentStatus` record (lines 473-484).  Its `amount` is
`parseFloat(amount)` with no null guard. -/
structure PaymentStatus where
  requestId : JValue
  transactionId : JValue
  amount : JSNum
  paymentTimestamp : JValue
  referenceNo : JValue
  description : JValue
  isPaid : JValue
  responseTime : JSNum
deriving DecidableEq

/-- Constructor `new PaymentStatus(...)`. -/
def PaymentStatus.make (requestId transactionId amount paymentTimestamp referenceNo
    description isPaid responseTime : JValue) : PaymentStatus :=
  ⟨requestId, transactionId, parseFloatJ amount, paymentTimestamp, referenceNo,
    description, isPaid, newDate responseTime⟩

/-- The `SendMoneyResult` record (lines 497-508). -/
structure SendMoneyResult where
  amount : JSNum
  senderFee : JSNum
  transactionId : JValue
  oldBalance : JSNum
  newBalance : JSNum
  timestamp : JValue
  referenceNo : JValue
  responseTime : JSNum
deriving DecidableEq

/-- Constructor `new SendMoneyResult(...)`. -/
def SendMoneyResult.make (amount senderFee transactionId oldBalance newBalance
    timestamp referenceNo responseTime : JValue) : SendMoneyResult :=
  ⟨parseFloatJ amount, parseFloatJ senderFee, transactionId, parseFloatJ oldBalance,
    parseFloatJ newBalance, timestamp, referenceNo, newDate responseTime⟩

/-- The guarded coercion of lines 553-554 and 617-618:
`x !== undefined && x !== null ? parseFloat(x) : null`. -/
def guardedParseFloat : JValue → Option JSNum
  | .null => none
  | .undefined => none
  | v => some (parseFloatJ v)

/-- The `StatementTransaction` record (lines 547-560); `amount` and `balance`
keep `null` as `null` (modelled `none`). -/
structure StatementTransaction where
  transactionId : JValue
  datetime : JValue
  timestamp : JValue
  description : JValue
  amount : Option JSNum
  balance : Option JSNum
  referenceNo : JValue
  opTypeId : JValue
  status : JValue
  createdAt : JValue
deriving DecidableEq

/-- Constructor `new StatementTransaction(...)`. -/
def StatementTransaction.make (transactionId datetime timestamp description amount
    balance referenceNo opTypeId status createdAt : JValue) : StatementTransaction :=
  ⟨transactionId, datetime, timestamp, description, guardedParseFloat amount,
    guardedParseFloat balance, referenceNo, opTypeId, status, createdAt⟩

/-- The `Statement` record (lines 521-532). -/
structure Statement where
  availableBalance : JSNum
  outstandingCredit : JSNum
  outstandingDebit : JSNum
  dayBalance : JSNum
  dayTotalIn : JSNum
  dayTotalOut : JSNum
  responseTime : JSNum
  dayStatement : List StatementTransaction
deriving DecidableEq

/-- Constructor `new Statement(...)`. -/
def Statement.make (availableBalance outstandingCredit outstandingDebit dayBalance
    dayTotalIn dayTotalOut responseTime : JValue)
    (dayStatement : List StatementTransaction) : Statement :=
  ⟨parseFloatJ availableBalance, parseFloatJ outstandingCredit,
    parseFloatJ outstandingDebit, parseFloatJ dayBalance, parseFloatJ dayTotalIn,
    parseFloatJ dayTotalOut, newDate responseTime, dayStatement⟩

/-- The `WalletCheck` record (lines 571-580); `existsField` models the source
field `exists`. -/
structure WalletCheck where
  existsField : JValue
  walletGatewayId : JValue
  walletName : JValue
  userAccountName : JValue
  canReceiveMoney : JValue
  responseTime : JSNum
deriving DecidableEq

/-- Constructor `new WalletCheck(...)`. -/
def WalletCheck.make (existsField walletGatewayId walletName userAccountName
    canReceiveMoney responseTime : JValue) : WalletCheck :=
  ⟨existsField, walletGatewayId, walletName, userAccountName, canReceiveMoney,
    newDate responseTime⟩

/-- The `OutstandingTransaction` record (lines 611-624); the same guarded
`amount`/`balance` coercion as `StatementTransaction`. -/
structure OutstandingTransaction where
  transactionId : JValue
  datetime : JValue
  timestamp : JValue
  description : JValue
  amount : Option JSNum
  balance : Option JSNum
  referenceNo : JValue
  opTypeId : JValue
  status : JValue
  createdAt : JValue
deriving DecidableEq

/-- Constructor `new OutstandingTransaction(...)`. -/
def OutstandingTransaction.make (transactionId datetime timestamp description amount
    balance referenceNo opTypeId status createdAt : JValue) : OutstandingTransaction :=
  ⟨transactionId, datetime, timestamp, description, guardedParseFloat amount,
    guardedParseFloat balance, referenceNo, opTypeId, status, createdAt⟩

/-- The `OutstandingTransactions` record (lines 589-596). -/
structure OutstandingTransactions where
  outstandingCredit : JSNum
  outstandingDebit : JSNum
  responseTime : JSNum
  outstandingTransactions : List OutstandingTransaction
deriving DecidableEq

/-- Constructor `new OutstandingTransactions(...)`. -/
def OutstandingTransactions.make (outstandingCredit outstandingDebit
    responseTime : JValue) (outstandingTransactions : List OutstandingTransaction) :
    OutstandingTransactions :=
  ⟨parseFloatJ outstandingCredit, parseFloatJ outstandingDebit, newDate responseTime,
    outstandingTransactions⟩

/-- A field of the `data` object of a response body: a scalar, or an array of
rows (each row an object of scalars), the shape `day_statement` and
`outstanding_transactions` take. -/
inductive JField where
  | scalar (v : JValue)
  | array (rows : List (List (String × JValue)))
deriving DecidableEq

/-- Reading `data.foo` in a scalar position; an absent key is JavaScript
`undefined`.  (An array value in a scalar position is also mapped to `undefined`;
the API never produces one there and no theorem depends on that corner.) -/
def jget (data : List (String × JField)) (k : String) : JValue :=
  match data.lookup k with
  | some (.scalar v) => v
  | some (.array _) => .undefined
  | none => .undefined

/-- Reading `data.foo` in an array position, together with the
`Array.isArray` test: `none` when the field is absent or not an array. -/
def jgetRows (data : List (String × JField)) (k : String) :
    Option (List (List (String × JValue))) :=
  match data.lookup k with
  | some (.array rows) => some rows
  | some (.scalar _) => none
  | none => none

/-- Reading `tx.foo` of a row object; an absent key is `undefined`. -/
def rget (row : List (String × JValue)) (k : String) : JValue :=
  (row.lookup k).getD .undefined

/-- The error envelope `{error: {code, message}}`.  `error = none` models an
absent (or falsy) `error` field, so that line 152's truthiness test fails;
`code`/`message` are `none` when absent. -/
structure ErrorEnvelope where
  code : Option String
  message : Option String
deriving DecidableEq

/-- A parsed response body: the optional error envelope and the `data`
object. -/
structure ResponseBody where
  error : Option ErrorEnvelope
  data : List (String × JField)
deriving DecidableEq

/-- What `fetch` plus `JSON.parse` delivered: the parsed body (`none` models a
falsy parse result such as JSON `null`, line 149), the collected response
headers, and the HTTP status. -/
structure FetchResult where
  body : Option ResponseBody
  headers : List (String × String)
  status : Nat
deriving DecidableEq

/-- The `{response, headers, code}` value `sendRequest` resolves with
(lines 158-162). -/
structure SendResult where
  response : ResponseBody
  headers : List (String × String)
  code : Nat
deriving DecidableEq

/-- The response half of `sendRequest` (lines 140-163): reject a falsy parse
result, then raise `RemoteError` from an error envelope (with the `||`
defaults of lines 153-154), else hand back body, headers and status.  The
request half (lines 124-138: fresh CSPRNG salt, signing, the HTTP POST) is
transport I/O outside the verified state space; theorems about signing
quantify over the salt instead. -/
def sendRequest (r : FetchResult) : Except ApiError SendResult :=
  match r.body with
  | none => .error .invalidResponse
  | some responseJson =>
    match responseJson.error with
    | some env => .error (.remoteError (strOr env.code "UNKNOWN_CODE")
        (strOr env.message "Unknown error"))
    | none => .ok ⟨responseJson, r.headers, r.status⟩

/-- The shared shape of the seven endpoint methods: `sendRequest`, then
`verifyResponse` on the endpoint's response-field whitelist, and - only after
verification succeeded - construction of the result record. -/
def endpointRun {α : Type} (c : GPayApiClient) (hmac : HmacFn) (r : FetchResult)
    (fields : List (String × JField) → List (String × JValue))
    (build : List (String × JField) → α) : Except ApiError α := do
  let result ← sendRequest r
  let data := result.response.data
  c.verifyResponse hmac result.headers (fields data)
  return build data

/-- The verification whitelist of `getBalance` (lines 194-197). -/
def balanceFields (data : List (String × JField)) : List (String × JValue) :=
  [("balance", jget data "balance"),
   ("response_timestamp", jget data "response_timestamp")]

/-- Method `getBalance` (lines 188-199), from the point where the HTTP response is in
hand. -/
def GPayApiClient.getBalance (c : GPayApiClient) (hmac : HmacFn) (r : FetchResult) :
    Except ApiError Balance :=
  endpointRun c hmac r balanceFields
    (fun data => Balance.make (jget data "balance") (jget data "response_timestamp"))

/-- The verification whitelist of `createPaymentRequest` (lines 218-225). -/
def paymentRequestFields (data : List (String × JField)) : List (String × JValue) :=
  [("requester_username", jget data "requester_username"),
   ("request_id", jget data "request_id"),
   ("request_time", jget data "request_time"),
   ("amount", jget data "amount"),
   ("reference_no", jget data "reference_no"),
   ("response_timestamp", jget data "response_timestamp")]

/-- Method `createPaymentRequest` (lines 208-234), response side. -/
def GPayApiClient.createPaymentRequest (c : GPayApiClient) (hmac : HmacFn)
    (r : FetchResult) : Except ApiError PaymentRequest :=
  endpointRun c hmac r paymentRequestFields
    (fun data => PaymentRequest.make (jget data "requester_username")
      (jget data "request_id") (jget data "request_time") (jget data "amount")
      (jget data "reference_no") (jget data "response_timestamp"))

/-- The verification whitelist of `checkPaymentStatus` (lines 249-258). -/
def paymentStatusFields (data : List (String × JField)) : List (String × JValue) :=
  [("request_id", jget data "request_id"),
   ("transaction_id", jget data "transaction_id"),
   ("amount", jget data "amount"),
   ("payment_timestamp", jget data "payment_timestamp"),
   ("reference_no", jget data "reference_no"),
   ("description", jget data "description"),
   ("is_paid", jget data "is_paid"),
   ("response_timestamp", jget data "response_timestamp")]

/-- Method `checkPaymentStatus` (lines 241-269), response side. -/
def GPayApiClient.checkPaymentStatus (c : GPayApiClient) (hmac : HmacFn)
    (r : FetchResult) : Except ApiError PaymentStatus :=
  endpointRun c hmac r paymentStatusFields
    (fun data => PaymentStatus.make (jget data "request_id")
      (jget data "transaction_id") (jget data "amount")
      (jget data "payment_timestamp") (jget data "reference_no")
      (jget data "description") (jget data "is_paid")
      (jget data "response_timestamp"))

/-- The verification whitelist of `sendMoney` (lines 290-299). -/
def sendMoneyFields (data : List (String × JField)) : List (String × JValue) :=
  [("amount", jget data "amount"),
   ("sender_fee", jget data "sender_fee"),
   ("transaction_id", jget data "transaction_id"),
   ("old_balance", jget data "old_balance"),
   ("new_balance", jget data "new_balance"),
   ("timestamp", jget data "timestamp"),
   ("reference_no", jget data "reference_no"),
   ("response_timestamp", jget data "response_timestamp")]

/-- Method `sendMoney` (lines 279-310), response side. -/
def GPayApiClient.sendMoney (c : GPayApiClient) (hmac : HmacFn) (r : FetchResult) :
    Except ApiError SendMoneyResult :=
  endpointRun c hmac r sendMoneyFields
    (fun data => SendMoneyResult.make (jget data "amount") (jget data "sender_fee")
      (jget data "transaction_id") (jget data "old_balance")
      (jget data "new_balance") (jget data "timestamp")
      (jget data "reference_no") (jget data "response_timestamp"))

/-- The verification whitelist of `getStatement` (lines 325-333);
`day_statement` is not part of it. -/
def statementFields (data : List (String × JField)) : List (String × JValue) :=
  [("available_balance", jget data "available_balance"),
   ("outstanding_credit", jget data "outstanding_credit"),
   ("outstanding_debit", jget data "outstanding_debit"),
   ("day_balance", jget data "day_balance"),
   ("day_total_in", jget data "day_total_in"),
   ("day_total_out", jget data "day_total_out"),
   ("response_timestamp", jget data "response_timestamp")]

/-- One row of `day_statement` (lines 335-346). -/
def statementRow (tx : List (String × JValue)) : StatementTransaction :=
  StatementTransaction.make (rget tx "transaction_id") (rget tx "datetime")
    (rget tx "timestamp") (rget tx "description") (rget tx "amount")
    (rget tx "balance") (rget tx "reference_no") (rget tx "op_type_id")
    (rget tx "status") (rget tx "created_at")

/-- Method `getStatement` (lines 317-358), response side. -/
def GPayApiClient.getStatement (c : GPayApiClient) (hmac : HmacFn) (r : FetchResult) :
    Except ApiError Statement :=
  endpointRun c hmac r statementFields
    (fun data => Statement.make (jget data "available_balance")
      (jget data "outstanding_credit") (jget data "outstanding_debit")
      (jget data "day_balance") (jget data "day_total_in")
      (jget data "day_total_out") (jget data "response_timestamp")
      (((jgetRows data "day_statement").getD []).map statementRow))

/-- The verification whitelist of `checkWallet` (lines 373-380). -/
def walletCheckFields (data : List (String × JField)) : List (String × JValue) :=
  [("exists", jget data "exists"),
   ("wallet_gateway_id", jget data "wallet_gateway_id"),
   ("wallet_name", jget data "wallet_name"),
   ("user_account_name", jget data "user_account_name"),
   ("can_receive_money", jget data "can_receive_money"),
   ("response_timestamp", jget data "response_timestamp")]

/-- Method `checkWallet` (lines 365-389), response side. -/
def GPayApiClient.checkWallet (c : GPayApiClient) (hmac : HmacFn) (r : FetchResult) :
    Except ApiError WalletCheck :=
  endpointRun c hmac r walletCheckFields
    (fun data => WalletCheck.make (jget data "exists")
      (jget data "wallet_gateway_id") (jget data "wallet_name")
      (jget data "user_account_name") (jget data "can_receive_money")
      (jget data "response_timestamp"))

/-- The verification whitelist of `getOutstandingTransactions`
(lines 402-406). -/
def outstandingFields (data : List (String × JField)) : List (String × JValue) :=
  [("outstanding_credit", jget data "outstanding_credit"),
   ("outstanding_debit", jget data "outstanding_debit"),
   ("response_timestamp", jget data "response_timestamp")]

/-- One row of `outstanding_transactions` (lines 408-419). -/
def outstandingRow (tx : List (String × JValue)) : OutstandingTransaction :=
  OutstandingTransaction.make (rget tx "transaction_id") (rget tx "datetime")
    (rget tx "timestamp") (rget tx "description") (rget tx "amount")
    (rget tx "balance") (rget tx "reference_no") (rget tx "op_type_id")
    (rget tx "status") (rget tx "created_at")

/-- Method `getOutstandingTransactions` (lines 395-427), response side. -/
def GPayApiClient.getOutstandingTransactions (c : GPayApiClient) (hmac : HmacFn)
    (r : FetchResult) : Except ApiError OutstandingTransactions :=
  endpointRun c hmac r outstandingFields
    (fun data => OutstandingTransactions.make (jget data "outstanding_credit")
      (jget data "outstanding_debit") (jget data "response_timestamp")
      (((jgetRows data "outstanding_transactions").getD []).map outstandingRow))

/-- The seven endpoint operations. -/
inductive Endpoint where
  | balance
  | paymentRequest
  | paymentStatus
  | sendMoney
  | statement
  | walletCheck
  | outstanding
deriving DecidableEq

/-- The sum of the seven result-record types. -/
inductive ApiRecord where
  | balance (b : Balance)
  | paymentRequest (p : PaymentRequest)
  | paymentStatus (p : PaymentStatus)
  | sendMoney (s : SendMoneyResult)
  | statement (s : Statement)
  | walletCheck (w : WalletCheck)
  | outstanding (o : OutstandingTransactions)
deriving DecidableEq

/-- The response-field whitelist each endpoint verifies. -/
def verifyFieldsOf (ep : Endpoint) : List (String × JField) → List (String × JValue) :=
  match ep with
  | .balance => balanceFields
  | .paymentRequest => paymentRequestFields
  | .paymentStatus => paymentStatusFields
  | .sendMoney => sendMoneyFields
  | .statement => statementFields
  | .walletCheck => walletCheckFields
  | .outstanding => outstandingFields

/-- Run one of the seven endpoint operations on a fetched response. -/
def runEndpoint (ep : Endpoint) (c : GPayApiClient) (hmac : HmacFn) (r : FetchResult) :
    Except ApiError ApiRecord :=
  match ep with
  | .balance => (c.getBalance hmac r).map .balance
  | .paymentRequest => (c.createPaymentRequest hmac r).map .paymentRequest
  | .paymentStatus => (c.checkPaymentStatus hmac r).map .paymentStatus
  | .sendMoney => (c.sendMoney hmac r).map .sendMoney
  | .statement => (c.getStatement hmac r).map .statement
  | .walletCheck => (c.checkWallet hmac r).map .walletCheck
  | .outstanding => (c.getOutstandingTransactions hmac r).map .outstanding

/-- Codepoint order on strings: lexicographic on unicode scalar values.  This
is the order the specification's canonicalization sentence names; it differs
from the UTF-16 code-unit order exactly on strings with supplementary-plane
characters. -/
def codepointLe (s t : String) : Prop :=
  unitsLeB (s.data.map Char.toNat) (t.data.map Char.toNat) = true

instance : DecidableRel codepointLe := fun s t => by unfold codepointLe; infer_instance

/-- Modelled from the spec (canonicalization sentence of §4.1 step 3): sort the
keys ascending by codepoint and join the entries as `key=value` with `&`,
null/absent serializing as an empty value and values inserted verbatim. -/
def specQueryCodepoint (parameters : List (String × JValue)) : String :=
  String.intercalate "&"
    ((List.insertionSort codepointLe (parameters.map Prod.fst)).filterMap
      (fun key => (parameters.lookup key).map (fun v => entryString (key, v))))

/-- The amended canonicalization statement: array-index keys first in ascending
numeric order, then the remaining keys in ascending UTF-16 code-unit order,
each entry serialized as `key=value` (null/absent giving an empty value,
values verbatim), joined with `&`. -/
def specQueryAmended (parameters : List (String × JValue)) : String :=
  String.intercalate "&"
    ((List.insertionSort idxKeyLe ((parameters.map Prod.fst).filter
        (fun k => isArrayIndex k))
      ++ List.insertionSort strLe ((parameters.map Prod.fst).filter
        (fun k => !isArrayIndex k))).filterMap
      (fun key => (parameters.lookup key).map (fun v => entryString (key, v))))

/-- A concrete MAC function used to instantiate witnesses; its output is never
the empty string. -/
def hmacDemo (key msg : String) : String := "mac[" ++ key ++ "|" ++ msg ++ "]"

/-- A concrete client used by witnesses. -/
def cDemo : GPayApiClient := ⟨"a", "k", "p", BaseUrl.STAGING, "en"⟩

/-- A concrete well-formed balance response body used by witnesses. -/
def balanceBodyDemo : ResponseBody :=
  ⟨none, [("balance", .scalar (.num 100)),
          ("response_timestamp", .scalar (.num 1700000000000))]⟩

/-- The signature `hmacDemo` assigns to `balanceBodyDemo` under salt `"S"` and
password `"p"`. -/
def balanceHashDemo : String := "mac[k|Spbalance=100&response_timestamp=1700000000000]"

/-- A fetched balance response that verifies. -/
def fetchOkDemo : FetchResult :=
  ⟨some balanceBodyDemo,
   [("x-signature-salt", "S"), ("x-signature-hash", balanceHashDemo)], 200⟩

/-- A fetched balance response whose hash header is wrong. -/
def fetchBadDemo : FetchResult :=
  ⟨some balanceBodyDemo,
   [("x-signature-salt", "S"), ("x-signature-hash", "wrong")], 200⟩

/-! ### Order-theoretic facts about the embedded JavaScript string orders -/

theorem unitsLeB_total : ∀ (u v : List Nat), unitsLeB u v = true ∨ unitsLeB v u = true
  | [], _ => Or.inl rfl
  | _ :: _, [] => Or.inr rfl
  | a :: as, b :: bs => by
    rcases Nat.lt_trichotomy a b with h | h | h
    · left; simp [unitsLeB, h]
    · subst h
      rcases unitsLeB_total as bs with h2 | h2
      · left; simp [unitsLeB, h2]
      · right; simp [unitsLeB, h2]
    · right; simp [unitsLeB, h]

theorem unitsLeB_trans : ∀ {u v w : List Nat},
    unitsLeB u v = true → unitsLeB v w = true → unitsLeB u w = true
  | [], _, _, _, _ => rfl
  | _ :: _, [], _, h1, _ => by simp [unitsLeB] at h1
  | _ :: _, _ :: _, [], _, h2 => by simp [unitsLeB] at h2
  | a :: as, b :: bs, c :: cs, h1, h2 => by
    simp only [unitsLeB] at h1 h2 ⊢
    by_cases hab : a < b
    · by_cases hbc : b < c
      · simp [Nat.lt_trans hab hbc]
      · by_cases hcb : c < b
        · simp [hcb, Nat.lt_asymm hcb] at h2
        · have hbc' : b = c := Nat.le_antisymm (Nat.not_lt.mp hcb) (Nat.not_lt.mp hbc)
          subst hbc'
          simp [hab]
    · by_cases hba : b < a
      · simp [hba, Nat.lt_asymm hba] at h1
      · have hab' : a = b := Nat.le_antisymm (Nat.not_lt.mp hba) (Nat.not_lt.mp hab)
        subst hab'
        simp only [Nat.lt_irrefl, if_false] at h1 ⊢
        by_cases hac : a < c
        · simp [hac]
        · by_cases hca : c < a
          · simp [hca, Nat.lt_asymm hca] at h2
          · rw [if_neg hac, if_neg hca]
            rw [if_neg hca, if_neg hac] at h2
            exact unitsLeB_trans h1 h2

theorem unitsLeB_antisymm : ∀ {u v : List Nat},
    unitsLeB u v = true → unitsLeB v u = true → u = v
  | [], [], _, _ => rfl
  | [], _ :: _, _, h2 => by simp [unitsLeB] at h2
  | _ :: _, [], h1, _ => by simp [unitsLeB] at h1
  | a :: as, b :: bs, h1, h2 => by
    by_cases hab : a < b
    · simp [unitsLeB, hab, Nat.lt_asymm hab] at h2
    · by_cases hba : b < a
      · simp [unitsLeB, hba, Nat.lt_asymm hba] at h1
      · have hab' : a = b := Nat.le_antisymm (Nat.not_lt.mp hba) (Nat.not_lt.mp hab)
        subst hab'
        simp only [unitsLeB, Nat.lt_irrefl, if_false] at h1 h2
        rw [unitsLeB_antisymm h1 h2]

theorem char_valid_nat (c : Char) :
    c.toNat < 0xd800 ∨ (0xdfff < c.toNat ∧ c.toNat < 0x110000) := c.valid

theorem char_eq_of_toNat_eq {c d : Char} (h : c.toNat = d.toNat) : c = d :=
  Char.eq_of_val_eq (UInt32.toNat.inj h)

theorem charUtf16_ne_nil (c : Char) : charUtf16 c ≠ [] := by
  unfold charUtf16; split <;> simp

theorem charUtf16_append_inj {c d : Char} {r s : List Nat}
    (h : charUtf16 c ++ r = charUtf16 d ++ s) : c = d ∧ r = s := by
  have hc := char_valid_nat c
  have hd := char_valid_nat d
  unfold charUtf16 at h
  by_cases h1 : c.toNat < 0x10000 <;> by_cases h2 : d.toNat < 0x10000
  · rw [if_pos h1, if_pos h2] at h
    simp only [List.cons_append, List.nil_append, List.cons.injEq] at h
    exact ⟨char_eq_of_toNat_eq h.1, h.2⟩
  · rw [if_pos h1, if_neg h2] at h
    simp only [List.cons_append, List.nil_append, List.cons.injEq] at h
    exact absurd h.1 (by omega)
  · rw [if_neg h1, if_pos h2] at h
    simp only [List.cons_append, List.nil_append, List.cons.injEq] at h
    exact absurd h.1 (by omega)
  · rw [if_neg h1, if_neg h2] at h
    simp only [List.cons_append, List.nil_append, List.cons.injEq] at h
    obtain ⟨e1, e2, e3⟩ := h
    refine ⟨char_eq_of_toNat_eq (by omega), e3⟩

theorem flatMap_charUtf16_inj : ∀ {l1 l2 : List Char},
    l1.flatMap charUtf16 = l2.flatMap charUtf16 → l1 = l2
  | [], [], _ => rfl
  | [], d :: _, h => by
    rw [List.flatMap_nil, List.flatMap_cons] at h
    exact absurd (List.append_eq_nil.mp h.symm).1 (charUtf16_ne_nil d)
  | c :: _, [], h => by
    rw [List.flatMap_nil, List.flatMap_cons] at h
    exact absurd (List.append_eq_nil.mp h).1 (charUtf16_ne_nil c)
  | c :: t1, d :: t2, h => by
    rw [List.flatMap_cons, List.flatMap_cons] at h
    obtain ⟨hcd, ht⟩ := charUtf16_append_inj h
    rw [hcd, flatMap_charUtf16_inj ht]

theorem utf16_inj {s t : String} (h : utf16 s = utf16 t) : s = t := by
  cases s with
  | mk d1 =>
    cases t with
    | mk d2 => exact congrArg String.mk (flatMap_charUtf16_inj h)

theorem strLe_total (s t : String) : strLe s t ∨ strLe t s := unitsLeB_total _ _

theorem strLe_trans {s t u : String} (h1 : strLe s t) (h2 : strLe t u) : strLe s u :=
  unitsLeB_trans h1 h2

theorem strLe_antisymm {s t : String} (h1 : strLe s t) (h2 : strLe t s) : s = t :=
  utf16_inj (unitsLeB_antisymm h1 h2)

theorem idxKeyLe_total (s t : String) : idxKeyLe s t ∨ idxKeyLe t s := by
  unfold idxKeyLe
  rcases Nat.lt_trichotomy (toNatD s) (toNatD t) with h | h | h
  · exact Or.inl (Or.inl h)
  · rcases strLe_total s t with h2 | h2
    · exact Or.inl (Or.inr ⟨h, h2⟩)
    · exact Or.inr (Or.inr ⟨h.symm, h2⟩)
  · exact Or.inr (Or.inl h)

theorem idxKeyLe_trans {s t u : String} (h1 : idxKeyLe s t) (h2 : idxKeyLe t u) :
    idxKeyLe s u := by
  unfold idxKeyLe at h1 h2 ⊢
  rcases h1 with h1 | ⟨h1, h1s⟩ <;> rcases h2 with h2 | ⟨h2, h2s⟩
  · exact Or.inl (Nat.lt_trans h1 h2)
  · exact Or.inl (h2 ▸ h1)
  · exact Or.inl (h1 ▸ h2)
  · exact Or.inr ⟨h1.trans h2, strLe_trans h1s h2s⟩

theorem idxKeyLe_antisymm {s t : String} (h1 : idxKeyLe s t) (h2 : idxKeyLe t s) :
    s = t := by
  unfold idxKeyLe at h1 h2
  rcases h1 with h1 | ⟨h1, h1s⟩ <;> rcases h2 with h2 | ⟨h2, h2s⟩
  · omega
  · omega
  · omega
  · exact strLe_antisymm h1s h2s

/-! ### Sorting and association-list helpers -/

theorem insertionSort_congr_perm {α : Type} (r : α → α → Prop) [DecidableRel r]
    (ht : ∀ a b, r a b ∨ r b a) (htr : ∀ {a b c}, r a b → r b c → r a c)
    (ha : ∀ {a b}, r a b → r b a → a = b) {l1 l2 : List α} (h : l1.Perm l2) :
    List.insertionSort r l1 = List.insertionSort r l2 := by
  haveI : IsTotal α r := ⟨ht⟩
  haveI : IsTrans α r := ⟨fun _ _ _ h1 h2 => htr h1 h2⟩
  haveI : IsAntisymm α r := ⟨fun _ _ h1 h2 => ha h1 h2⟩
  exact List.eq_of_perm_of_sorted
    (((List.perm_insertionSort r l1).trans h).trans (List.perm_insertionSort r l2).symm)
    (List.sorted_insertionSort r l1) (List.sorted_insertionSort r l2)

theorem lookup_eq_none_of_forall {β : Type} {l : List (String × β)} {k : String}
    (h : ∀ p ∈ l, p.1 ≠ k) : l.lookup k = none := by
  induction l with
  | nil => rfl
  | cons p t ih =>
    have hp : ¬ (k == p.1) = true := by
      simp only [beq_iff_eq]
      exact fun he => h p (List.mem_cons_self p t) he.symm
    calc (p :: t).lookup k = t.lookup k := by
          rcases p with ⟨a, b⟩
          simp only [List.lookup]
          rw [Bool.not_eq_true] at hp
          rw [hp]
        _ = none := ih (fun q hq => h q (List.mem_cons_of_mem p hq))

theorem lookup_isSome_of_mem_keys {β : Type} {l : List (String × β)} {k : String}
    (h : k ∈ l.map Prod.fst) : (l.lookup k).isSome := by
  induction l with
  | nil => simp at h
  | cons p t ih =>
    rcases p with ⟨a, b⟩
    simp only [List.map_cons, List.mem_cons] at h
    by_cases hk : k = a
    · subst hk
      simp [List.lookup]
    · have hk' : (k == a) = false := by simp [hk]
      simp only [List.lookup, hk']
      exact ih (h.resolve_left hk)

theorem perm_lookup_eq {β : Type} {l1 l2 : List (String × β)} (hp : l1.Perm l2)
    (hn : (l1.map Prod.fst).Nodup) : ∀ k, l1.lookup k = l2.lookup k := by
  induction hp with
  | nil => intro k; rfl
  | cons x _ ih =>
    intro k
    rcases x with ⟨a, b⟩
    simp only [List.map_cons, List.nodup_cons] at hn
    simp only [List.lookup]
    cases k == a
    · exact ih hn.2 k
    · rfl
  | swap x y l =>
    intro k
    rcases x with ⟨a, b⟩
    rcases y with ⟨a', b'⟩
    have hne : a' ≠ a := by
      simp only [List.map_cons, List.nodup_cons, List.mem_cons, not_or] at hn
      exact hn.1.1
    by_cases h1 : k = a'
    · subst h1
      have hk2 : (k == a) = false := by simp [hne]
      simp [List.lookup, hk2]
    · have hk1 : (k == a') = false := by simp [h1]
      by_cases h2 : k = a
      · subst h2
        simp [List.lookup, hk1]
      · have hk2 : (k == a) = false := by simp [h2]
        simp [List.lookup, hk1, hk2]
  | trans hp1 _ ih1 ih2 =>
    intro k
    have hn2 : (_ : List (String × β)).map Prod.fst |>.Nodup :=
      ((hp1.map Prod.fst).nodup_iff).mp hn
    exact (ih1 hn k).trans (ih2 hn2 k)

theorem filter_filterMap_key {β : Type} (g : String → Option β) (p : String → Bool) :
    ∀ ks : List String,
      (ks.filterMap (fun key => (g key).map (fun v => (key, v)))).filter
          (fun kv => p kv.1)
        = (ks.filter p).filterMap (fun key => (g key).map (fun v => (key, v)))
  | [] => rfl
  | k :: ks => by
    cases hg : g k with
    | none =>
      simp only [List.filterMap_cons, hg, Option.map_none']
      cases hp : p k <;>
        simp [List.filter_cons, hp, hg, filter_filterMap_key g p ks]
    | some v =>
      simp only [List.filterMap_cons, hg, Option.map_some']
      cases hp : p k <;>
        simp [List.filter_cons, hp, hg, filter_filterMap_key g p ks]

theorem orderedInsert_entry (g : String → Option JValue) (k : String) (v : JValue)
    (hk : g k = some v) :
    ∀ ks : List String, (∀ x ∈ ks, (g x).isSome = true) →
      List.orderedInsert entryIdxLe (k, v)
          (ks.filterMap (fun key => (g key).map (fun w => (key, w))))
        = (List.orderedInsert idxKeyLe k ks).filterMap
            (fun key => (g key).map (fun w => (key, w)))
  | [] => by
    intro _
    simp [List.orderedInsert, hk]
  | x :: ks => by
    intro hall
    obtain ⟨w, hw⟩ := Option.isSome_iff_exists.mp (hall x (List.mem_cons_self x ks))
    simp only [List.filterMap_cons, hw, Option.map_some', List.orderedInsert]
    by_cases hr : idxKeyLe k x
    · rw [if_pos hr, if_pos (show entryIdxLe (k, v) (x, w) from hr)]
      simp [List.filterMap_cons, hw, hk]
    · rw [if_neg hr, if_neg (show ¬ entryIdxLe (k, v) (x, w) from hr)]
      simp only [List.filterMap_cons, hw, Option.map_some']
      rw [orderedInsert_entry g k v hk ks (fun y hy => hall y (List.mem_cons_of_mem x hy))]

theorem insertionSort_entry (g : String → Option JValue) :
    ∀ ks : List String, (∀ x ∈ ks, (g x).isSome = true) →
      List.insertionSort entryIdxLe
          (ks.filterMap (fun key => (g key).map (fun w => (key, w))))
        = (List.insertionSort idxKeyLe ks).filterMap
            (fun key => (g key).map (fun w => (key, w)))
  | [] => by intro _; rfl
  | k :: ks => by
    intro hall
    obtain ⟨v, hv⟩ := Option.isSome_iff_exists.mp (hall k (List.mem_cons_self k ks))
    simp only [List.filterMap_cons, hv, Option.map_some', List.insertionSort]
    rw [insertionSort_entry g ks (fun y hy => hall y (List.mem_cons_of_mem k hy))]
    exact orderedInsert_entry g k v hv (List.insertionSort idxKeyLe ks)
      (fun y hy => hall y (List.mem_cons_of_mem k
        ((List.mem_insertionSort idxKeyLe).mp hy)))

theorem filter_insertionSort_strLe (p : String → Bool) (K : List String) :
    (List.insertionSort strLe K).filter p = List.insertionSort strLe (K.filter p) := by
  haveI : IsTotal String strLe := ⟨strLe_total⟩
  haveI : IsTrans String strLe := ⟨fun _ _ _ => strLe_trans⟩
  haveI : IsAntisymm String strLe := ⟨fun _ _ => strLe_antisymm⟩
  exact @List.eq_of_perm_of_sorted String strLe _ _ _
    (((List.perm_insertionSort strLe K).filter p).trans
      (List.perm_insertionSort strLe (K.filter p)).symm)
    ((List.sorted_insertionSort strLe K).filter p)
    (List.sorted_insertionSort strLe (K.filter p))

theorem queryString_congr_perm {l1 l2 : List (String × JValue)} (hp : l1.Perm l2)
    (hn : (l1.map Prod.fst).Nodup) : queryString l1 = queryString l2 := by
  unfold queryString sortedParamsList
  have hkeys : List.insertionSort strLe (l1.map Prod.fst)
      = List.insertionSort strLe (l2.map Prod.fst) :=
    insertionSort_congr_perm strLe strLe_total (fun h1 h2 => strLe_trans h1 h2)
      (fun h1 h2 => strLe_antisymm h1 h2) (hp.map Prod.fst)
  have hfun : (fun key => (l1.lookup key).map (fun v => (key, v)))
      = (fun key => (l2.lookup key).map (fun v => (key, v))) := by
    funext key
    rw [perm_lookup_eq hp hn key]
  rw [hkeys, hfun]

theorem queryString_eq_amended (params : List (String × JValue)) :
    queryString params = specQueryAmended params := by
  unfold queryString specQueryAmended objEntries sortedParamsList
  have hsome : ∀ x ∈ List.insertionSort strLe (params.map Prod.fst),
      (params.lookup x).isSome = true := fun x hx =>
    lookup_isSome_of_mem_keys ((List.mem_insertionSort strLe).mp hx)
  rw [filter_filterMap_key (fun key => params.lookup key) (fun k => isArrayIndex k)
    (List.insertionSort strLe (params.map Prod.fst))]
  rw [filter_filterMap_key (fun key => params.lookup key) (fun k => !isArrayIndex k)
    (List.insertionSort strLe (params.map Prod.fst))]
  rw [insertionSort_entry _ _ (fun x hx => hsome x (List.mem_of_mem_filter hx))]
  rw [insertionSort_congr_perm idxKeyLe idxKeyLe_total (fun h1 h2 => idxKeyLe_trans h1 h2)
    (fun h1 h2 => idxKeyLe_antisymm h1 h2)
    ((List.perm_insertionSort strLe (params.map Prod.fst)).filter (fun k => isArrayIndex k))]
  rw [filter_insertionSort_strLe]
  rw [← List.filterMap_append]
  simp [List.map_filterMap, Option.map_map, Function.comp_def]

/-! ### The endpoint pipeline -/

theorem except_map_ok {ε α β : Type} {f : α → β} {x : Except ε α} {y : β}
    (h : x.map f = .ok y) : ∃ a, x = .ok a ∧ y = f a := by
  cases x with
  | error e => simp [Except.map] at h
  | ok a =>
    simp only [Except.map, Except.ok.injEq] at h
    exact ⟨a, rfl, h.symm⟩

theorem except_map_error {ε α β : Type} (f : α → β) {x : Except ε α} {e : ε}
    (h : x = .error e) : x.map f = .error e := by
  rw [h]; rfl

theorem endpointRun_ok {α : Type} {c : GPayApiClient} {hmac : HmacFn} {r : FetchResult}
    {fields : List (String × JField) → List (String × JValue)}
    {build : List (String × JField) → α} {a : α}
    (h : endpointRun c hmac r fields build = .ok a) :
    ∃ b, r.body = some b ∧ b.error = none
      ∧ c.verifyResponse hmac r.headers (fields b.data) = .ok ()
      ∧ a = build b.data := by
  obtain ⟨body, headers, status⟩ := r
  cases body with
  | none => simp [endpointRun, sendRequest, bind, Except.bind] at h
  | some b =>
    cases he : b.error with
    | some env =>
      simp only [endpointRun, sendRequest, he, bind, Except.bind] at h
      exact Except.noConfusion h
    | none =>
      simp only [endpointRun, sendRequest, he, bind, Except.bind] at h
      cases hv : c.verifyResponse hmac headers (fields b.data) with
      | error e => rw [hv] at h; simp at h
      | ok u =>
        cases u
        rw [hv] at h
        simp only [pure, Except.pure, Except.ok.injEq] at h
        exact ⟨b, rfl, he, hv, h.symm⟩

theorem endpointRun_verify_error {α : Type} {c : GPayApiClient} {hmac : HmacFn}
    {r : FetchResult} {fields : List (String × JField) → List (String × JValue)}
    {build : List (String × JField) → α} {b : ResponseBody} {e : ApiError}
    (hb : r.body = some b) (he : b.error = none)
    (hv : c.verifyResponse hmac r.headers (fields b.data) = .error e) :
    endpointRun c hmac r fields build = .error e := by
  obtain ⟨body, headers, status⟩ := r
  cases hb
  simp only [endpointRun, sendRequest, he, bind, Except.bind]
  simp only at hv
  rw [hv]

theorem endpointRun_envelope {α : Type} {c : GPayApiClient} {hmac : HmacFn}
    {r : FetchResult} {fields : List (String × JField) → List (String × JValue)}
    {build : List (String × JField) → α} {b : ResponseBody} {env : ErrorEnvelope}
    (hb : r.body = some b) (he : b.error = some env) :
    endpointRun c hmac r fields build
      = .error (.remoteError (strOr env.code "UNKNOWN_CODE")
          (strOr env.message "Unknown error")) := by
  obtain ⟨body, headers, status⟩ := r
  cases hb
  simp only [endpointRun, sendRequest, he, bind, Except.bind]

/-! ### The claims -/

/-- C2: The signature computed for a parameter map is the base64 HMAC-SHA256,
keyed by the secret key, of `(salt ++ password) ++ canonicalQueryString`; in
particular, for salt `"S"`, password `"p"`, secret key `"k"` and parameters
`{balance: 100, response_timestamp: 1700000000000}`, `generateVerificationHash`
over the hash token `"Sp"` yields the MAC of `"k"` and
`"Spbalance=100&response_timestamp=1700000000000"`.  The MAC function is
universally quantified because the HMAC primitive itself is the Node `crypto`
library, outside this repository. -/
theorem claim2_signature_shape :
    (∀ (c : GPayApiClient) (hmac : HmacFn) (salt : String)
        (params : List (String × JValue)),
      c.generateVerificationHash hmac (generateHashToken salt c.password) params
        = hmac c.secretKey ((salt ++ c.password) ++ queryString params))
    ∧ (∀ hmac : HmacFn,
      (⟨"a", "k", "p", BaseUrl.STAGING, "en"⟩ : GPayApiClient).generateVerificationHash
          hmac (generateHashToken "S" "p")
          [("balance", .num 100), ("response_timestamp", .num 1700000000000)]
        = hmac "k" "Spbalance=100&response_timestamp=1700000000000") := by
  constructor
  · intro c hmac salt params
    rfl
  · intro hmac
    exact congrArg (hmac "k") (by decide)

/-- C3 counterexample: The canonical query string is *not* always the
codepoint-sorted `key=value` serialization the claim describes: for the map
`{"9": 1, "10": 2, "": 3, "\u{10000}": 4}` the code emits the array-index
keys `9`, `10` first in numeric order (ECMAScript object key enumeration) and
orders the remaining keys by UTF-16 code unit (the supplementary-plane character
before U+E000), while codepoint sorting would give `10`, `9`, ``,
`\u{10000}`. -/
theorem claim3_counterexample :
    queryString [("9", .num 1), ("10", .num 2),
        (String.mk [Char.ofNat 0xE000], .num 3), (String.mk [Char.ofNat 0x10000], .num 4)]
      ≠ specQueryCodepoint [("9", .num 1), ("10", .num 2),
        (String.mk [Char.ofNat 0xE000], .num 3), (String.mk [Char.ofNat 0x10000], .num 4)] := by
  decide

/-- C3 amended: For every parameter map, the canonical query string fed to
the HMAC lists array-index keys (canonical decimal integers below `2^32 - 1`)
first in ascending numeric order, then the remaining keys sorted ascending by
UTF-16 code unit, joining the entries as `key=value` with `&`, where a null or
absent value serializes as the empty string and every value is inserted
verbatim with no URL-encoding. -/
theorem claim3_canonical_query (params : List (String × JValue)) :
    queryString params = specQueryAmended params :=
  queryString_eq_amended params

/-- C8: Signing is order-independent in the presentation of the parameter
map: two association lists with the same key/value pairs in different orders
(distinct keys, as in any JavaScript object) produce identical signatures under
`generateVerificationHash`, for every MAC function, secret key and hash
token. -/
theorem claim8_order_independence :
    ∀ (c : GPayApiClient) (hmac : HmacFn) (hashToken : String)
      (l1 l2 : List (String × JValue)), l1.Perm l2 → (l1.map Prod.fst).Nodup →
      c.generateVerificationHash hmac hashToken l1
        = c.generateVerificationHash hmac hashToken l2 := by
  intro c hmac tok l1 l2 hp hn
  unfold GPayApiClient.generateVerificationHash
  rw [queryString_congr_perm hp hn]

/-- Witness for C8: `{b: 2, a: 1}` and `{a: 1, b: 2}` sign identically. -/
theorem claim8_order_independence_witness :
    ([(("b" : String), JValue.num 2), ("a", JValue.num 1)].Perm
        [("a", JValue.num 1), ("b", JValue.num 2)])
    ∧ (⟨"a", "k", "p", BaseUrl.STAGING, "en"⟩ : GPayApiClient).generateVerificationHash
        hmacDemo "T" [("b", JValue.num 2), ("a", JValue.num 1)]
      = (⟨"a", "k", "p", BaseUrl.STAGING, "en"⟩ : GPayApiClient).generateVerificationHash
        hmacDemo "T" [("a", JValue.num 1), ("b", JValue.num 2)] :=
  ⟨List.Perm.swap _ _ _,
    claim8_order_independence _ hmacDemo "T" _ _ (List.Perm.swap _ _ _) (by decide)⟩

/-- C9 counterexample: Client construction succeeds on `BaseUrl.DEV`
(`http://localhost:8080/...`), which is neither of the two exposed values
`STAGING` and `PRODUCTION`, so construction does *not* fail exactly outside
`{STAGING, PRODUCTION}`. -/
theorem claim9_counterexample :
    GPayApiClient.create "a" "s" "p" BaseUrl.DEV "en"
      = .ok ⟨"a", "s", "p", BaseUrl.DEV, "en"⟩
    ∧ BaseUrl.DEV ≠ BaseUrl.STAGING ∧ BaseUrl.DEV ≠ BaseUrl.PRODUCTION :=
  ⟨rfl, by decide, by decide⟩

/-- C9 amended: Construction fails with the configuration error exactly
when the supplied `baseUrl` is none of the three `BaseUrl` table values
`STAGING`, `PRODUCTION` and `DEV`; for those three values construction succeeds
and stores the credentials unchanged. -/
theorem claim9_constructor_validation :
    ∀ apiKey secretKey password baseUrl language : String,
      (GPayApiClient.create apiKey secretKey password baseUrl language
          = .ok ⟨apiKey, secretKey, password, baseUrl, language⟩
        ↔ (baseUrl = BaseUrl.STAGING ∨ baseUrl = BaseUrl.PRODUCTION
            ∨ baseUrl = BaseUrl.DEV))
      ∧ (GPayApiClient.create apiKey secretKey password baseUrl language
          = .error .configurationError
        ↔ ¬(baseUrl = BaseUrl.STAGING ∨ baseUrl = BaseUrl.PRODUCTION
            ∨ baseUrl = BaseUrl.DEV)) := by
  intro a s p b l
  unfold GPayApiClient.create BaseUrl.values
  by_cases hb : b ∈ [BaseUrl.STAGING, BaseUrl.PRODUCTION, BaseUrl.DEV]
  · rw [if_pos hb]
    simp only [List.mem_cons, List.not_mem_nil, or_false] at hb
    constructor
    · simp [hb]
    · simp [hb]
  · rw [if_neg hb]
    simp only [List.mem_cons, List.not_mem_nil, or_false] at hb
    constructor
    · constructor
      · intro h
        exact absurd h (by simp)
      · intro h
        exact absurd h hb
    · simp [hb]

/-- C10: A signature header that is present with an empty-string value is
falsy in JavaScript, so `verifyResponse` raises the missing-signature error -
the same error as for an absent header, never a hash mismatch - and the empty
salt or hash is never fed into signature recomputation. -/
theorem claim10_empty_header_missing :
    ∀ (c : GPayApiClient) (hmac : HmacFn) (fields : List (String × JValue))
      (s h : String),
      c.verifyResponse hmac [("x-signature-salt", s), ("x-signature-hash", "")] fields
          = .error .missingSignature
      ∧ c.verifyResponse hmac [("x-signature-salt", ""), ("x-signature-hash", h)] fields
          = .error .missingSignature := by
  intro c hmac fields s h
  constructor
  · rfl
  · by_cases hh : h = ""
    · subst hh; rfl
    · have e1 : (([("x-signature-salt", ""), ("x-signature-hash", h)] :
          List (String × String)).lookup "x-signature-hash") = some h := rfl
      have e2 : (([("x-signature-salt", ""), ("x-signature-hash", h)] :
          List (String × String)).lookup "x-signature-salt") = some "" := rfl
      have e3 : (([("x-signature-salt", ""), ("x-signature-hash", h)] :
          List (String × String)).lookup "X-Signature-Hash") = none := rfl
      have e4 : (([("x-signature-salt", ""), ("x-signature-hash", h)] :
          List (String × String)).lookup "X-Signature-Salt") = none := rfl
      have hb : (h == "") = false := by simp [hh]
      unfold GPayApiClient.verifyResponse
      rw [e1, e2, e3, e4]
      simp [jsOr, falsy, hb]

theorem verify_missing_hash (c : GPayApiClient) (hmac : HmacFn)
    (headers : List (String × String)) (fields : List (String × JValue))
    (h1 : headers.lookup "x-signature-hash" = none)
    (h2 : headers.lookup "X-Signature-Hash" = none) :
    c.verifyResponse hmac headers fields = .error .missingSignature := by
  unfold GPayApiClient.verifyResponse
  rw [h1, h2]
  rfl

theorem verify_missing_salt (c : GPayApiClient) (hmac : HmacFn)
    (headers : List (String × String)) (fields : List (String × JValue))
    (h1 : headers.lookup "x-signature-salt" = none)
    (h2 : headers.lookup "X-Signature-Salt" = none) :
    c.verifyResponse hmac headers fields = .error .missingSignature := by
  unfold GPayApiClient.verifyResponse
  rw [h1, h2]
  simp [jsOr, falsy]

/-- C1: Signer/verifier round trip: headers carrying the salt and the hash
that signing the parameter map produced verify that same map without error.
The salt is quantified (with the only property `generateSalt`'s base64 output
always has: it is non-empty), and likewise the MAC output is assumed
non-empty, as every base64 HMAC-SHA256 digest is. -/
theorem claim1_sign_verify_roundtrip (c : GPayApiClient) (hmac : HmacFn)
    (params : List (String × JValue)) (salt : String) (hsalt : salt ≠ "")
    (hhash : c.generateVerificationHash hmac (generateHashToken salt c.password) params
      ≠ "") :
    c.verifyResponse hmac
      [("x-signature-salt", salt),
       ("x-signature-hash",
         c.generateVerificationHash hmac (generateHashToken salt c.password) params)]
      params = .ok () := by
  set H := c.generateVerificationHash hmac (generateHashToken salt c.password) params
    with hH
  have e1 : (([("x-signature-salt", salt), ("x-signature-hash", H)] :
      List (String × String)).lookup "x-signature-hash") = some H := rfl
  have e2 : (([("x-signature-salt", salt), ("x-signature-hash", H)] :
      List (String × String)).lookup "x-signature-salt") = some salt := rfl
  have e3 : (([("x-signature-salt", salt), ("x-signature-hash", H)] :
      List (String × String)).lookup "X-Signature-Hash") = none := rfl
  have e4 : (([("x-signature-salt", salt), ("x-signature-hash", H)] :
      List (String × String)).lookup "X-Signature-Salt") = none := rfl
  unfold GPayApiClient.verifyResponse
  rw [e1, e2, e3, e4]
  have j1 : jsOr (some H) none = some H := by simp [jsOr, hhash]
  have j2 : jsOr (some salt) none = some salt := by simp [jsOr, hsalt]
  rw [j1, j2]
  simp [falsy, hhash, hsalt, Option.getD, ← hH]

/-- Witness for C1 at a concrete client, salt and parameter map. -/
theorem claim1_sign_verify_roundtrip_witness :
    ("S" : String) ≠ ""
    ∧ (⟨"a", "k", "p", BaseUrl.STAGING, "en"⟩ : GPayApiClient).verifyResponse hmacDemo
        [("x-signature-salt", "S"),
         ("x-signature-hash",
           (⟨"a", "k", "p", BaseUrl.STAGING, "en"⟩ : GPayApiClient).generateVerificationHash
             hmacDemo (generateHashToken "S" "p") [("balance", JValue.num 100)])]
        [("balance", JValue.num 100)] = .ok () :=
  ⟨by decide,
    claim1_sign_verify_roundtrip _ hmacDemo [("balance", JValue.num 100)] "S"
      (by decide) (by decide)⟩

/-- C4 counterexample: Header extraction is *not* case-insensitive: with
the salt and hash present under the all-caps spellings `X-SIGNATURE-SALT` /
`X-SIGNATURE-HASH` (case-insensitively equal to the expected names, as the
first conjunct states), `verifyResponse` still fails with the
missing-signature error. -/
theorem claim4_counterexample :
    ("X-SIGNATURE-HASH".data.map Char.toLower = "x-signature-hash".data
      ∧ "X-SIGNATURE-SALT".data.map Char.toLower = "x-signature-salt".data)
    ∧ (⟨"a", "k", "p", BaseUrl.STAGING, "en"⟩ : GPayApiClient).verifyResponse hmacDemo
        [("X-SIGNATURE-SALT", "S"), ("X-SIGNATURE-HASH", "h")] []
        = .error .missingSignature :=
  ⟨⟨by decide, by decide⟩, rfl⟩

/-- C4 amended: Verification reads the salt and hash under exactly the two
spellings `x-signature-hash` / `X-Signature-Hash` (and `-salt` likewise); when
neither spelling of either header is present it fails with the
missing-signature error for every choice of response fields, and headers under
either accepted spelling (here the capitalized one) are extracted and verify a
correctly signed map. -/
theorem claim4_header_extraction :
    ∀ (c : GPayApiClient) (hmac : HmacFn) (headers : List (String × String))
      (fields params : List (String × JValue)) (salt : String),
      ((∀ p ∈ headers, p.1 ≠ "x-signature-hash" ∧ p.1 ≠ "X-Signature-Hash") →
        c.verifyResponse hmac headers fields = .error .missingSignature)
      ∧ ((∀ p ∈ headers, p.1 ≠ "x-signature-salt" ∧ p.1 ≠ "X-Signature-Salt") →
        c.verifyResponse hmac headers fields = .error .missingSignature)
      ∧ (salt ≠ "" →
        c.generateVerificationHash hmac (generateHashToken salt c.password) params ≠ "" →
        c.verifyResponse hmac
          [("X-Signature-Salt", salt),
           ("X-Signature-Hash",
             c.generateVerificationHash hmac (generateHashToken salt c.password) params)]
          params = .ok ()) := by
  intro c hmac headers fields params salt
  refine ⟨?_, ?_, ?_⟩
  · intro hall
    exact verify_missing_hash c hmac headers fields
      (lookup_eq_none_of_forall (fun p hp => (hall p hp).1))
      (lookup_eq_none_of_forall (fun p hp => (hall p hp).2))
  · intro hall
    exact verify_missing_salt c hmac headers fields
      (lookup_eq_none_of_forall (fun p hp => (hall p hp).1))
      (lookup_eq_none_of_forall (fun p hp => (hall p hp).2))
  · intro hsalt hhash
    set H := c.generateVerificationHash hmac (generateHashToken salt c.password) params
      with hH
    have e1 : (([("X-Signature-Salt", salt), ("X-Signature-Hash", H)] :
        List (String × String)).lookup "x-signature-hash") = none := rfl
    have e2 : (([("X-Signature-Salt", salt), ("X-Signature-Hash", H)] :
        List (String × String)).lookup "x-signature-salt") = none := rfl
    have e3 : (([("X-Signature-Salt", salt), ("X-Signature-Hash", H)] :
        List (String × String)).lookup "X-Signature-Hash") = some H := rfl
    have e4 : (([("X-Signature-Salt", salt), ("X-Signature-Hash", H)] :
        List (String × String)).lookup "X-Signature-Salt") = some salt := rfl
    unfold GPayApiClient.verifyResponse
    rw [e1, e2, e3, e4]
    have j1 : jsOr none (some H) = some H := rfl
    have j2 : jsOr none (some salt) = some salt := rfl
    rw [j1, j2]
    simp [falsy, hhash, hsalt, Option.getD, ← hH]

/-- Witness for C4: absent headers give the missing-signature error, and the
capitalized spelling verifies a correctly signed map. -/
theorem claim4_header_extraction_witness :
    (⟨"a", "k", "p", BaseUrl.STAGING, "en"⟩ : GPayApiClient).verifyResponse hmacDemo
        [("Content-Type", "application/json")] [] = .error .missingSignature
    ∧ (⟨"a", "k", "p", BaseUrl.STAGING, "en"⟩ : GPayApiClient).verifyResponse hmacDemo
        [("X-Signature-Salt", "S"),
         ("X-Signature-Hash",
           (⟨"a", "k", "p", BaseUrl.STAGING, "en"⟩ : GPayApiClient).generateVerificationHash
             hmacDemo (generateHashToken "S" "p") [("balance", JValue.num 100)])]
        [("balance", JValue.num 100)] = .ok () :=
  ⟨(claim4_header_extraction _ hmacDemo [("Content-Type", "application/json")] [] [] "S").1
      (by decide),
    (claim4_header_extraction _ hmacDemo [] [] [("balance", JValue.num 100)] "S").2.2
      (by decide) (by decide)⟩

/-- C5: A result record reaches the caller only after `verifyResponse`
succeeded on that response: for each of the seven endpoint operations, an `ok`
outcome implies the response body parsed, carried no error envelope and its
whitelisted fields verified against the response headers; and when
verification fails, the operation propagates that error and returns no
record. -/
theorem claim5_verify_before_record :
    ∀ (ep : Endpoint) (c : GPayApiClient) (hmac : HmacFn) (r : FetchResult),
      (∀ rec : ApiRecord, runEndpoint ep c hmac r = .ok rec →
        ∃ b, r.body = some b ∧ b.error = none
          ∧ c.verifyResponse hmac r.headers (verifyFieldsOf ep b.data) = .ok ())
      ∧ (∀ (b : ResponseBody) (e : ApiError), r.body = some b → b.error = none →
          c.verifyResponse hmac r.headers (verifyFieldsOf ep b.data) = .error e →
          runEndpoint ep c hmac r = .error e) := by
  intro ep c hmac r
  constructor
  · intro rec h
    cases ep <;>
      · simp only [runEndpoint, GPayApiClient.getBalance,
          GPayApiClient.createPaymentRequest, GPayApiClient.checkPaymentStatus,
          GPayApiClient.sendMoney, GPayApiClient.getStatement,
          GPayApiClient.checkWallet, GPayApiClient.getOutstandingTransactions] at h
        obtain ⟨a, ha, _⟩ := except_map_ok h
        obtain ⟨b, hb, he, hv, _⟩ := endpointRun_ok ha
        exact ⟨b, hb, he, hv⟩
  · intro b e hb he hv
    cases ep <;>
      · simp only [runEndpoint, GPayApiClient.getBalance,
          GPayApiClient.createPaymentRequest, GPayApiClient.checkPaymentStatus,
          GPayApiClient.sendMoney, GPayApiClient.getStatement,
          GPayApiClient.checkWallet, GPayApiClient.getOutstandingTransactions]
        exact except_map_error _ (endpointRun_verify_error hb he hv)

/-- Witness for C5: a correctly signed balance response yields a record and its
verification succeeds; the same body with a wrong hash header makes the
operation fail with the hash-mismatch error. -/
theorem claim5_verify_before_record_witness :
    (∃ b, fetchOkDemo.body = some b ∧ b.error = none
        ∧ cDemo.verifyResponse hmacDemo fetchOkDemo.headers
            (verifyFieldsOf .balance b.data) = .ok ())
    ∧ runEndpoint .balance cDemo hmacDemo fetchBadDemo = .error .hashMismatch :=
  ⟨(claim5_verify_before_record .balance cDemo hmacDemo fetchOkDemo).1
      (.balance (Balance.make (.num 100) (.num 1700000000000))) (by rfl),
    (claim5_verify_before_record .balance cDemo hmacDemo fetchBadDemo).2
      balanceBodyDemo .hashMismatch rfl rfl (by rfl)⟩

/-- C6: A parsed response body that carries an error envelope
`{error: {code, message}}` makes every endpoint operation fail with the
remote error built from that code and message (with the `||` defaults), before
any signature verification or record construction: the outcome is the remote
error for every choice of headers, including headers that would fail
verification. -/
theorem claim6_error_envelope_short_circuit :
    ∀ (ep : Endpoint) (c : GPayApiClient) (hmac : HmacFn) (r : FetchResult)
      (b : ResponseBody) (env : ErrorEnvelope),
      r.body = some b → b.error = some env →
      runEndpoint ep c hmac r
        = .error (.remoteError (strOr env.code "UNKNOWN_CODE")
            (strOr env.message "Unknown error")) := by
  intro ep c hmac r b env hb he
  cases ep <;>
    · simp only [runEndpoint, GPayApiClient.getBalance,
        GPayApiClient.createPaymentRequest, GPayApiClient.checkPaymentStatus,
        GPayApiClient.sendMoney, GPayApiClient.getStatement,
        GPayApiClient.checkWallet, GPayApiClient.getOutstandingTransactions]
      exact except_map_error _ (endpointRun_envelope hb he)

/-- Witness for C6: an error envelope with code `E42` and message `boom`, in a
response with no signature headers at all, surfaces as that remote error
rather than as a missing-signature failure. -/
theorem claim6_error_envelope_short_circuit_witness :
    runEndpoint .balance cDemo hmacDemo
      ⟨some ⟨some ⟨some "E42", some "boom"⟩, []⟩, [], 404⟩
      = .error (.remoteError (strOr (some "E42") "UNKNOWN_CODE")
          (strOr (some "boom") "Unknown error")) :=
  claim6_error_envelope_short_circuit .balance cDemo hmacDemo
    ⟨some ⟨some ⟨some "E42", some "boom"⟩, []⟩, [], 404⟩
    ⟨some ⟨some "E42", some "boom"⟩, []⟩ ⟨some "E42", some "boom"⟩ rfl rfl

/-- C7 counterexample: A `PaymentStatus` built from a verified body whose
`amount` field is `null` gets `parseFloat(null) = NaN` as its amount - not
`null`: the constructor of `PaymentStatus` (unlike `StatementTransaction`)
applies `parseFloat` without a null guard. -/
theorem claim7_counterexample :
    (PaymentStatus.make (.str "r1") .null .null .null .null (.str "d")
        (.bool false) (.num 1700000000000)).amount = JSNum.nan := rfl

/-- C7 amended: A numeric field given as the string `"49.90"` maps to the
number `49.9` in every record variant (shown for `PaymentStatus.amount` and
`StatementTransaction.amount`); a `null` numeric field maps to `null` exactly
in the guarded constructors `StatementTransaction` and `OutstandingTransaction`
(never to `0` and never to `NaN`), while the unguarded `PaymentStatus.amount`
maps `null` to `NaN`. -/
theorem claim7_numeric_coercion :
    (∀ requestId transactionId paymentTimestamp referenceNo description isPaid
        responseTime : JValue,
      (PaymentStatus.make requestId transactionId (.str "49.90") paymentTimestamp
          referenceNo description isPaid responseTime).amount = JSNum.val (499/10))
    ∧ (∀ transactionId datetime timestamp description balance referenceNo opTypeId
        status createdAt : JValue,
      (StatementTransaction.make transactionId datetime timestamp description
          (.str "49.90") balance referenceNo opTypeId status createdAt).amount
        = some (JSNum.val (499/10)))
    ∧ (∀ transactionId datetime timestamp description balance referenceNo opTypeId
        status createdAt : JValue,
      (StatementTransaction.make transactionId datetime timestamp description
          .null balance referenceNo opTypeId status createdAt).amount = none)
    ∧ (∀ transactionId datetime timestamp description balance referenceNo opTypeId
        status createdAt : JValue,
      (OutstandingTransaction.make transactionId datetime timestamp description
          .null balance referenceNo opTypeId status createdAt).amount = none)
    ∧ (∀ requestId transactionId paymentTimestamp referenceNo description isPaid
        responseTime : JValue,
      (PaymentStatus.make requestId transactionId .null paymentTimestamp
          referenceNo description isPaid responseTime).amount = JSNum.nan) := by
  have h4990 : parseFloatJ (.str "49.90") = JSNum.val (499/10) := by
    have h1 : parseFloatJ (.str "49.90")
        = JSNum.val (1 * (((49 : ℕ) : ℚ) + ((90 : ℕ) : ℚ) / (10 : ℚ) ^ (2 : ℕ))) := rfl
    rw [h1]
    norm_num
  refine ⟨?_, ?_, ?_, ?_, ?_⟩
  · intro a b' c' d e f g
    simp [PaymentStatus.make, h4990]
  · intro a b' c' d e f g i j
    simp [StatementTransaction.make, guardedParseFloat, h4990]
  · intro a b' c' d e f g i j
    rfl
  · intro a b' c' d e f g i j
    rfl
  · intro a b' c' d e f g
    rfl
